import Mathlib

/-
  Verification of the pyv pipelined RV32I simulator against its design
  specification.  The Lean definitions below are a shallow embedding of the
  Python sources (pyv/hazard.py, pyv/pipeline_regs.py, pyv/disassembler.py,
  pyv/models/pipelined.py).  Components of the repository that are not part
  of the provided sources (pyv/isa.py, pyv/util.py, pyv/reg.py,
  pyv/stages.py) are modelled from the specification where needed; each such
  definition says so in its doc comment.
-/

namespace PyV

/-! ### ISA constants -/

/-- Modelled from the spec: `pyv/isa.py` is not among the sources.  The
`OPCODES` table holds the standard RV32I opcodes, stored as the 5-bit field
`inst[6:2]` (the hazard unit and disassembler both extract the opcode as
`(inst >> 2) & 0x1F`). -/
def OPCODE_LOAD : Nat := 0x00

def OPCODE_OPIMM : Nat := 0x04

def OPCODE_AUIPC : Nat := 0x05

def OPCODE_STORE : Nat := 0x08

def OPCODE_OP : Nat := 0x0C

def OPCODE_LUI : Nat := 0x0D

def OPCODE_BRANCH : Nat := 0x18

def OPCODE_JALR : Nat := 0x19

def OPCODE_JAL : Nat := 0x1B

def OPCODE_SYSTEM : Nat := 0x1C

/-- Modelled from the spec: instruction-class sets (spec section 2 "ISA
tables", section 4.11).  I-type: OP-IMM, LOAD, JALR, SYSTEM. -/
def INST_I : List Nat := [OPCODE_JALR, OPCODE_LOAD, OPCODE_OPIMM, OPCODE_SYSTEM]

def INST_S : List Nat := [OPCODE_STORE]

def INST_B : List Nat := [OPCODE_BRANCH]

def INST_U : List Nat := [OPCODE_LUI, OPCODE_AUIPC]

def INST_J : List Nat := [OPCODE_JAL]

/-- Modelled from the spec: CSR funct3 codes (`pyv/isa.py` absent); the
standard RV32I Zicsr funct3 encodings. -/
def CSRRW_F3 : Nat := 1

def CSRRS_F3 : Nat := 2

def CSRRC_F3 : Nat := 3

def CSRRWI_F3 : Nat := 5

def CSRRSI_F3 : Nat := 6

def CSRRCI_F3 : Nat := 7

/-! ### Bit utilities -/

/-- Modelled from the spec: `pyv/util.py` is not among the sources; spec
section 2 describes "Bit utilities — extract/sign-extend fields from 32-bit
words".  `get_bit x i` is bit `i` of `x`. -/
def get_bit (x i : Nat) : Nat := (x >>> i) &&& 1

/-- Modelled from the spec: field `x[hi:lo]` inclusive, as used throughout
the disassembler and hazard unit. -/
def get_bits (x hi lo : Nat) : Nat := (x >>> lo) &&& ((1 <<< (hi - lo + 1)) - 1)

/-! ### Pipeline record types

The record types live in `pyv/stages.py`, which is not among the sources;
they are modelled from spec section 3.  The unspecified `csr_*` fields are
omitted (no claim mentions them). -/

/-- IF/ID pipeline payload (spec section 3): instruction word and its pc. -/
structure IFID_t where
  inst : Nat
  pc : Int
deriving DecidableEq

/-- ID/EX pipeline payload (spec section 3). -/
structure IDEX_t where
  pc : Int
  rs1 : Nat
  rs2 : Nat
  imm : Nat
  rd : Nat
  rs1_idx : Nat
  rs2_idx : Nat
  opcode : Nat
  funct3 : Nat
  funct7 : Nat
  we : Bool
  wb_sel : Nat
  mem : Nat
  is_branch : Bool
deriving DecidableEq

/-- EX/MEM pipeline payload (spec section 3). -/
structure EXMEM_t where
  pc4 : Int
  alu_res : Int
  rs2 : Nat
  rd : Nat
  we : Bool
  wb_sel : Nat
  mem : Nat
  funct3 : Nat
  take_branch : Bool
deriving DecidableEq

/-- MEM/WB pipeline payload (spec section 3). -/
structure MEMWB_t where
  pc4 : Int
  alu_res : Int
  mem_rdata : Nat
  rd : Nat
  we : Bool
  wb_sel : Nat
  csr_read_val : Nat
deriving DecidableEq

/-- Reset/bubble value of the IF/ID register: the canonical NOP with
`pc = -4` (source: `pyv/pipeline_regs.py`, `IFIDReg.__init__`). -/
def ifidBubble : IFID_t := { inst := 0x00000013, pc := -4 }

/-- Reset/bubble value of the ID/EX register: the all-zero record
(`IDEX_t()` in the source; spec section 3 "Reset/bubble = all zero"). -/
def idexZero : IDEX_t :=
  { pc := 0, rs1 := 0, rs2 := 0, imm := 0, rd := 0, rs1_idx := 0, rs2_idx := 0,
    opcode := 0, funct3 := 0, funct7 := 0, we := false, wb_sel := 0, mem := 0,
    is_branch := false }

/-- Reset/bubble value of the EX/MEM register: the all-zero record. -/
def exmemZero : EXMEM_t :=
  { pc4 := 0, alu_res := 0, rs2 := 0, rd := 0, we := false, wb_sel := 0,
    mem := 0, funct3 := 0, take_branch := false }

/-- Reset/bubble value of the MEM/WB register: the all-zero record. -/
def memwbZero : MEMWB_t :=
  { pc4 := 0, alu_res := 0, mem_rdata := 0, rd := 0, we := false, wb_sel := 0,
    csr_read_val := 0 }

/-! ### Hazard unit (source: `pyv/hazard.py`) -/

/-- Output bundle of `HazardUnit.process`. -/
structure HazardOut where
  stall_pc : Bool
  stall_ifid : Bool
  stall_idex : Bool
  stall_exmem : Bool
  stall_memwb : Bool
  flush_ifid : Bool
  flush_idex : Bool
  flush_exmem : Bool
deriving DecidableEq

/-- Embedding of `HazardUnit._needs_rs1`: opcodes whose instructions read
`rs1`. -/
def needsRs1 (opcode : Nat) : Bool :=
  [OPCODE_OP, OPCODE_OPIMM, OPCODE_LOAD, OPCODE_STORE, OPCODE_BRANCH,
    OPCODE_JALR].contains opcode

/-- Embedding of `HazardUnit._needs_rs2`: opcodes whose instructions read
`rs2`. -/
def needsRs2 (opcode : Nat) : Bool :=
  [OPCODE_OP, OPCODE_STORE, OPCODE_BRANCH].contains opcode

/-- Data-hazard portion of `HazardUnit.process`: returns the triple
`(stall_pc, stall_ifid, flush_idex)` computed by the nested `if` chain of
the source (lines 65-114). -/
def hazardData (ifid : IFID_t) (idex : IDEX_t) (exmem : EXMEM_t) :
    Bool × Bool × Bool :=
  let inst := ifid.inst
  if inst &&& 0x3 = 0x3 then
    let opcode := (inst >>> 2) &&& 0x1F
    let rs1_idx := (inst >>> 15) &&& 0x1F
    let rs2_idx := (inst >>> 20) &&& 0x1F
    if idex.mem = 1 then
      let load_dest := idex.rd
      if needsRs1 opcode && (rs1_idx == load_dest) && (load_dest != 0) then
        (true, true, true)
      else if needsRs2 opcode && (rs2_idx == load_dest) && (load_dest != 0) then
        (true, true, true)
      else (false, false, false)
    else
      if idex.we && (idex.rd != 0) then
        if (needsRs1 opcode && rs1_idx == idex.rd)
            || (needsRs2 opcode && rs2_idx == idex.rd) then
          (true, true, true)
        else (false, false, false)
      else if exmem.we && (exmem.rd != 0) then
        if (needsRs1 opcode && rs1_idx == exmem.rd)
            || (needsRs2 opcode && rs2_idx == exmem.rd) then
          (true, true, true)
        else (false, false, false)
      else (false, false, false)
  else (false, false, false)

/-- Embedding of `HazardUnit.process` (source lines 51-130): the data-hazard
triple plus the control-hazard flushes; `stall_idex`, `stall_exmem`,
`stall_memwb` and `flush_exmem` are always written false. -/
def hazardProcess (ifid : IFID_t) (idex : IDEX_t) (exmem : EXMEM_t)
    (take_branch : Bool) : HazardOut :=
  let d := hazardData ifid idex exmem
  { stall_pc := d.1
    stall_ifid := d.2.1
    stall_idex := false
    stall_exmem := false
    stall_memwb := false
    flush_ifid := take_branch
    flush_idex := d.2.2 || take_branch
    flush_exmem := false }

/-- The IF/ID instruction reads register `r`: the word is a valid encoding
(low two bits `11`) and its opcode needs `rs1` with `rs1 = r`, or needs
`rs2` with `rs2 = r` (the reading the hazard unit performs on the raw
instruction word). -/
def ifidReads (ifid : IFID_t) (r : Nat) : Prop :=
  ifid.inst &&& 0x3 = 0x3 ∧
    ((needsRs1 ((ifid.inst >>> 2) &&& 0x1F) = true ∧
        (ifid.inst >>> 15) &&& 0x1F = r) ∨
      (needsRs2 ((ifid.inst >>> 2) &&& 0x1F) = true ∧
        (ifid.inst >>> 20) &&& 0x1F = r))

instance (ifid : IFID_t) (r : Nat) : Decidable (ifidReads ifid r) := by
  unfold ifidReads; infer_instance

/-! ### Pipeline registers (source: `pyv/pipeline_regs.py`)

Each `process` either writes the register's `next` face or leaves it alone;
an unwritten `next` holds the current value.  A `process` result is modelled
as `Option`: `some v` is a write of `v`, `none` is no write. -/

/-- Modelled from the spec: `pyv/reg.py` is not among the sources.  Spec
section 3, `Reg`: "`next` defaults to `current` if no one writes it that
cycle (hold behavior for stalls)". -/
def regHold {α : Type} (cur : α) (write : Option α) : α := write.getD cur

/-- Embedding of `IFIDReg.process`: flush writes the NOP bubble, otherwise a
non-stalled cycle latches the input, otherwise nothing is written. -/
def ifidProcess (inp : IFID_t) (stall flush : Bool) : Option IFID_t :=
  if flush then some ifidBubble
  else if !stall then some inp
  else none

/-- Embedding of `IDEXReg.process`. -/
def idexProcess (inp : IDEX_t) (stall flush : Bool) : Option IDEX_t :=
  if flush then some idexZero
  else if !stall then some inp
  else none

/-- Embedding of `EXMEMReg.process`. -/
def exmemProcess (inp : EXMEM_t) (stall flush : Bool) : Option EXMEM_t :=
  if flush then some exmemZero
  else if !stall then some inp
  else none

/-- Embedding of `MEMWBReg.process`. -/
def memwbProcess (inp : MEMWB_t) (stall flush : Bool) : Option MEMWB_t :=
  if flush then some memwbZero
  else if !stall then some inp
  else none

/-- Value held by the IF/ID register at the next cycle, given its current
value, its input and the stall/flush controls. -/
def ifidRegNext (cur inp : IFID_t) (stall flush : Bool) : IFID_t :=
  regHold cur (ifidProcess inp stall flush)

/-- Value held by the ID/EX register at the next cycle. -/
def idexRegNext (cur inp : IDEX_t) (stall flush : Bool) : IDEX_t :=
  regHold cur (idexProcess inp stall flush)

/-- Value held by the EX/MEM register at the next cycle. -/
def exmemRegNext (cur inp : EXMEM_t) (stall flush : Bool) : EXMEM_t :=
  regHold cur (exmemProcess inp stall flush)

/-- Value held by the MEM/WB register at the next cycle. -/
def memwbRegNext (cur inp : MEMWB_t) (stall flush : Bool) : MEMWB_t :=
  regHold cur (memwbProcess inp stall flush)

/-! ### Top-level PC update glue (source: `pyv/models/pipelined.py`,
`Pipelined.connects`) -/

/-- The conditional PC write of `Pipelined.connects`: `pc_reg.next` is
written with `npc` only when `stall_pc` is deasserted. -/
def connectsPCWrite (stall : Bool) (npcVal : Int) : Option Int :=
  if !stall then some npcVal else none

/-- Embedding of `Pipelined.connects`: the resulting PC value at the next
cycle (through the register's hold default) together with the two internal
signals it drives, `take_branch` and `alu_res`, read from the EX/MEM
register output. -/
def connectsStep (stall : Bool) (npcVal pcCur : Int) (exmem : EXMEM_t) :
    Int × Bool × Int :=
  (regHold pcCur (connectsPCWrite stall npcVal), exmem.take_branch, exmem.alu_res)

end PyV

namespace PyV

/-! ### Claims about the hazard unit and the pipeline registers -/

/-- Concrete IF/ID payload used in counterexamples: the word `0x000180B3`
encodes `add x1, x3, x0` (opcode OP, rs1 = 3, rs2 = 0, rd = 1). -/
def cexIfid : IFID_t := { inst := 0x000180B3, pc := 0 }

/-- Concrete ID/EX payload: not a load, `we = true`, `rd = 5`; register 5 is
not read by `cexIfid`. -/
def cexIdex : IDEX_t := { idexZero with we := true, rd := 5 }

/-- Concrete EX/MEM payload: `we = true`, `rd = 3`; register 3 is read as
`rs1` by `cexIfid`. -/
def cexExmem : EXMEM_t := { exmemZero with we := true, rd := 3 }

/-- C2, counterexample.  The EX/MEM record has `we = true`, `rd = 3 ≠ 0`,
and the IF/ID instruction reads register 3 as `rs1`; yet because the ID/EX
record has `we = true` and `rd ≠ 0` (with no operand match), the `elif`
guarding the EX/MEM check is skipped and no stall is produced — the claimed
"regardless of what the ID/EX record holds" fails. -/
theorem hazard_exmem_depends_on_idex :
    cexExmem.we = true ∧ cexExmem.rd ≠ 0 ∧ ifidReads cexIfid cexExmem.rd ∧
      (hazardProcess cexIfid cexIdex cexExmem false).stall_pc = false ∧
      (hazardProcess cexIfid cexIdex cexExmem false).stall_ifid = false ∧
      (hazardProcess cexIfid cexIdex cexExmem false).flush_idex = false := by
  decide

/-- C2, amended.  If the EX/MEM record has `we = true` and `rd ≠ 0` and the
IF/ID instruction reads that `rd`, then — provided the ID/EX record does not
hold a load (`mem ≠ 1`) and does not itself have `we = true` with `rd ≠ 0`
— the hazard unit asserts `stall_pc`, `stall_ifid` and `flush_idex`. -/
theorem hazard_exmem_raw_stalls (ifid : IFID_t) (idex : IDEX_t)
    (exmem : EXMEM_t) (tb : Bool)
    (hmem : idex.mem ≠ 1) (hidex : ¬(idex.we = true ∧ idex.rd ≠ 0))
    (hwe : exmem.we = true) (hrd : exmem.rd ≠ 0)
    (hread : ifidReads ifid exmem.rd) :
    (hazardProcess ifid idex exmem tb).stall_pc = true ∧
      (hazardProcess ifid idex exmem tb).stall_ifid = true ∧
      (hazardProcess ifid idex exmem tb).flush_idex = true := by
  obtain ⟨hvalid, hmatch⟩ := hread
  have hguard : (idex.we && (idex.rd != 0)) = false := by
    by_cases h : idex.we = true
    · have hz : idex.rd = 0 := by
        by_contra hne
        exact hidex ⟨h, hne⟩
      simp [hz]
    · rw [Bool.not_eq_true] at h
      simp [h]
  have hcase : hazardData ifid idex exmem = (true, true, true) := by
    unfold hazardData
    rw [if_pos hvalid, if_neg hmem, hguard]
    simp only [Bool.false_eq_true, if_false]
    rw [if_pos (by simp [hwe, hrd])]
    rw [if_pos ?_]
    rcases hmatch with ⟨h1, h2⟩ | ⟨h1, h2⟩
    · simp [h1, h2]
    · simp [h1, h2]
  simp [hazardProcess, hcase]

/-- C2, witness for the amended theorem. -/
theorem hazard_exmem_raw_stalls_witness :
    (hazardProcess cexIfid idexZero cexExmem false).stall_pc = true ∧
      (hazardProcess cexIfid idexZero cexExmem false).stall_ifid = true ∧
      (hazardProcess cexIfid idexZero cexExmem false).flush_idex = true :=
  hazard_exmem_raw_stalls cexIfid idexZero cexExmem false (by decide)
    (by decide) (by decide) (by decide) (by decide)

/-- C3.  If the ID/EX record holds a load (`mem = 1`) with destination
`rd ≠ 0` and the IF/ID instruction reads that register, the hazard unit
asserts `stall_pc`, `stall_ifid` and `flush_idex`, whatever the branch
signal and the EX/MEM record are. -/
theorem hazard_load_use_stalls (ifid : IFID_t) (idex : IDEX_t)
    (exmem : EXMEM_t) (tb : Bool)
    (hmem : idex.mem = 1) (hrd : idex.rd ≠ 0)
    (hread : ifidReads ifid idex.rd) :
    (hazardProcess ifid idex exmem tb).stall_pc = true ∧
      (hazardProcess ifid idex exmem tb).stall_ifid = true ∧
      (hazardProcess ifid idex exmem tb).flush_idex = true := by
  obtain ⟨hvalid, hmatch⟩ := hread
  have hcase : hazardData ifid idex exmem = (true, true, true) := by
    unfold hazardData
    rw [if_pos hvalid, if_pos hmem]
    rcases hmatch with ⟨h1, h2⟩ | ⟨h1, h2⟩
    · rw [if_pos (by simp [h1, h2, hrd])]
    · by_cases hfirst :
        (needsRs1 ((ifid.inst >>> 2) &&& 0x1F)
            && ((ifid.inst >>> 15) &&& 0x1F == idex.rd) && (idex.rd != 0)) = true
      · rw [if_pos hfirst]
      · rw [if_neg hfirst, if_pos (by simp [h1, h2, hrd])]
  simp [hazardProcess, hcase]

/-- C3, witness: a load in ID/EX with destination register 3, read as `rs1`
by the `add x1, x3, x0` sitting in IF/ID. -/
theorem hazard_load_use_stalls_witness :
    (hazardProcess cexIfid { idexZero with mem := 1, rd := 3 } exmemZero
        false).stall_pc = true ∧
      (hazardProcess cexIfid { idexZero with mem := 1, rd := 3 } exmemZero
          false).stall_ifid = true ∧
      (hazardProcess cexIfid { idexZero with mem := 1, rd := 3 } exmemZero
          false).flush_idex = true :=
  hazard_load_use_stalls cexIfid { idexZero with mem := 1, rd := 3 }
    exmemZero false (by decide) (by decide) (by decide)

/-- C4.  Each of the four pipeline registers obeys the stall/flush mux
together with the register's hold default: flush yields the bubble of its
type (with priority over stall), stall holds the current value, and
otherwise the input is latched. -/
theorem pipeline_reg_semantics :
    (∀ (cur inp : IFID_t) (stall flush : Bool),
        ifidRegNext cur inp stall flush =
          if flush then ifidBubble else if stall then cur else inp) ∧
      (∀ (cur inp : IDEX_t) (stall flush : Bool),
        idexRegNext cur inp stall flush =
          if flush then idexZero else if stall then cur else inp) ∧
      (∀ (cur inp : EXMEM_t) (stall flush : Bool),
        exmemRegNext cur inp stall flush =
          if flush then exmemZero else if stall then cur else inp) ∧
      (∀ (cur inp : MEMWB_t) (stall flush : Bool),
        memwbRegNext cur inp stall flush =
          if flush then memwbZero else if stall then cur else inp) := by
  refine ⟨?_, ?_, ?_, ?_⟩ <;>
    · intro cur inp stall flush
      cases stall <;> cases flush <;>
        simp [ifidRegNext, idexRegNext, exmemRegNext, memwbRegNext,
          ifidProcess, idexProcess, exmemProcess, memwbProcess, regHold]

/-- C5.  The `connects` glue writes the PC register's `next` only when
`stall_pc` is deasserted, so a stalled cycle leaves the PC unchanged; the
other two signals it drives (`take_branch`, `alu_res`) are read from the
EX/MEM register output and do not depend on the stall. -/
theorem pc_stall_semantics :
    ∀ (stall : Bool) (npcVal pcCur : Int) (exmem : EXMEM_t),
      connectsStep stall npcVal pcCur exmem =
        (if stall then pcCur else npcVal, exmem.take_branch, exmem.alu_res) := by
  intro stall npcVal pcCur exmem
  cases stall <;> simp [connectsStep, connectsPCWrite, regHold]

/-! ### Immediate decoding (source: `pyv/disassembler.py`,
`Disassembler.decode_imm`) -/

/-- Embedding of `Disassembler.decode_imm`: the immediate, as the 32-bit
unsigned word the source computes (`sign_ext | imm`, both initially 0). -/
def decode_imm (opcode inst : Nat) : Nat :=
  let sign := get_bit inst 31
  if opcode ∈ INST_I then
    let imm := get_bits inst 31 20
    let sign_ext := if sign ≠ 0 then 0xfffff <<< 12 else 0
    sign_ext ||| imm
  else if opcode ∈ INST_S then
    let imm_11_5 := get_bits inst 31 25
    let imm_4_0 := get_bits inst 11 7
    let imm := (imm_11_5 <<< 5) ||| imm_4_0
    let sign_ext := if sign ≠ 0 then 0xfffff <<< 12 else 0
    sign_ext ||| imm
  else if opcode ∈ INST_B then
    let imm_12 := get_bit inst 31
    let imm_10_5 := get_bits inst 30 25
    let imm_4_1 := get_bits inst 11 8
    let imm_11 := get_bits inst 7 7
    let imm := (imm_12 <<< 12) ||| (imm_11 <<< 11) ||| (imm_10_5 <<< 5) |||
      (imm_4_1 <<< 1)
    let sign_ext := if sign ≠ 0 then 0x7ffff <<< 13 else 0
    sign_ext ||| imm
  else if opcode ∈ INST_U then
    let imm := get_bits inst 31 12 <<< 12
    0 ||| imm
  else if opcode ∈ INST_J then
    let imm_20 := get_bit inst 31
    let imm_10_1 := get_bits inst 30 21
    let imm_11 := get_bits inst 20 20
    let imm_19_12 := get_bits inst 19 12
    let imm := (imm_20 <<< 20) ||| (imm_19_12 <<< 12) ||| (imm_11 <<< 11) |||
      (imm_10_1 <<< 1)
    let sign_ext := if sign ≠ 0 then 0x7ff <<< 21 else 0
    sign_ext ||| imm
  else 0

/-! Specification-side immediate layouts.  The following five definitions
follow the words of spec section 4.11 (and of claim C6): the class-specific
field composition, with `inst[31]` replicated into the stated number of
upper bits. -/

/-- Spec-side sign extension: `inst[31]` replicated into the `width` upper
bits starting at bit `lo`. -/
def specSignBits (inst width lo : Nat) : Nat :=
  if get_bit inst 31 = 1 then ((1 <<< width) - 1) <<< lo else 0

/-- Spec-side I-type immediate: `inst[31:20]`, `inst[31]` into the upper 20
bits. -/
def specImmI (inst : Nat) : Nat :=
  specSignBits inst 20 12 ||| get_bits inst 31 20

/-- Spec-side S-type immediate: `{inst[31:25], inst[11:7]}`, `inst[31]` into
the upper 20 bits. -/
def specImmS (inst : Nat) : Nat :=
  specSignBits inst 20 12 ||| ((get_bits inst 31 25 <<< 5) ||| get_bits inst 11 7)

/-- Spec-side B-type immediate:
`{inst[31], inst[7], inst[30:25], inst[11:8], 0}` (bits 12, 11, 10:5, 4:1,
0), `inst[31]` into the upper 19 bits. -/
def specImmB (inst : Nat) : Nat :=
  specSignBits inst 19 13 |||
    ((get_bit inst 31 <<< 12) ||| (get_bit inst 7 <<< 11) |||
      (get_bits inst 30 25 <<< 5) ||| (get_bits inst 11 8 <<< 1))

/-- Spec-side U-type immediate: `{inst[31:12], 12'b0}`, no sign
extension. -/
def specImmU (inst : Nat) : Nat :=
  get_bits inst 31 12 <<< 12

/-- Spec-side J-type immediate:
`{inst[31], inst[19:12], inst[20], inst[30:21], 0}` (bits 20, 19:12, 11,
10:1, 0), `inst[31]` into the upper 11 bits. -/
def specImmJ (inst : Nat) : Nat :=
  specSignBits inst 11 21 |||
    ((get_bit inst 31 <<< 20) ||| (get_bits inst 19 12 <<< 12) |||
      (get_bit inst 20 <<< 11) ||| (get_bits inst 30 21 <<< 1))

/-- Bit `i` of a word is 0 or 1. -/
theorem get_bit_le_one (x i : Nat) : get_bit x i = 0 ∨ get_bit x i = 1 := by
  unfold get_bit
  rcases Nat.and_one_is_mod (x >>> i) ▸ Nat.mod_two_eq_zero_or_one (x >>> i)
    with h | h
  · exact Or.inl h
  · exact Or.inr h

/-- Single-bit field extraction agrees with `get_bit`. -/
theorem get_bits_single (x i : Nat) : get_bits x i i = get_bit x i := by
  unfold get_bits get_bit
  have h : i - i + 1 = 1 := by omega
  rw [h]
  norm_num [Nat.shiftLeft_eq]

/-- C6.  For every instruction word, `decode_imm` realizes the class-wise
layouts of the immediate table: I (all four I-class opcodes), S, B, U and J
compose exactly the fields the spec states, with `inst[31]` sign-extending
the stated number of upper bits (20 for I/S, 19 for B, 11 for J, none for
U). -/
theorem decode_imm_layout (inst : Nat) :
    decode_imm OPCODE_OPIMM inst = specImmI inst ∧
      decode_imm OPCODE_LOAD inst = specImmI inst ∧
      decode_imm OPCODE_JALR inst = specImmI inst ∧
      decode_imm OPCODE_SYSTEM inst = specImmI inst ∧
      decode_imm OPCODE_STORE inst = specImmS inst ∧
      decode_imm OPCODE_BRANCH inst = specImmB inst ∧
      decode_imm OPCODE_LUI inst = specImmU inst ∧
      decode_imm OPCODE_AUIPC inst = specImmU inst ∧
      decode_imm OPCODE_JAL inst = specImmJ inst := by
  have hsplit := get_bit_le_one inst 31
  refine ⟨?_, ?_, ?_, ?_, ?_, ?_, ?_, ?_, ?_⟩ <;>
    rcases hsplit with h | h <;>
      simp [decode_imm, specImmI, specImmS, specImmB, specImmU, specImmJ,
        specSignBits, get_bits_single, INST_I, INST_S, INST_B, INST_U, INST_J,
        OPCODE_OP, OPCODE_OPIMM, OPCODE_LOAD, OPCODE_STORE, OPCODE_BRANCH,
        OPCODE_JAL, OPCODE_JALR, OPCODE_LUI, OPCODE_AUIPC, OPCODE_SYSTEM, h]

/-! ### Disassembler (source: `pyv/disassembler.py`) -/

/-- Embedding of `Disassembler.REG_ABI_NAMES`: register ABI names. -/
def REG_ABI_NAMES (n : Nat) : String :=
  match n with
  | 0 => "zero" | 1 => "ra" | 2 => "sp" | 3 => "gp"
  | 4 => "tp" | 5 => "t0" | 6 => "t1" | 7 => "t2"
  | 8 => "s0" | 9 => "s1" | 10 => "a0" | 11 => "a1"
  | 12 => "a2" | 13 => "a3" | 14 => "a4" | 15 => "a5"
  | 16 => "a6" | 17 => "a7" | 18 => "s2" | 19 => "s3"
  | 20 => "s4" | 21 => "s5" | 22 => "s6" | 23 => "s7"
  | 24 => "s8" | 25 => "s9" | 26 => "s10" | 27 => "s11"
  | 28 => "t3" | 29 => "t4" | 30 => "t5" | 31 => "t6"
  | _ => ""

/-- Embedding of `Disassembler.reg_name`: `xN(abi)`.  All register fields
are 5-bit extractions, so the dictionary lookup never fails. -/
def reg_name (n : Nat) : String :=
  "x" ++ toString n ++ "(" ++ REG_ABI_NAMES n ++ ")"

/-- Embedding of the local `to_signed` helper of `disassemble` (32-bit
two's-complement reading of a word). -/
def to_signed (v : Nat) : Int :=
  if v &&& (1 <<< 31) ≠ 0 then (v : Int) - (1 <<< 32) else (v : Int)

/-- Python's `hex` rendering of a nonnegative integer: `0x` followed by the
lowercase hexadecimal digits with no padding. -/
def pyHex (n : Nat) : String :=
  "0x" ++ String.mk (Nat.toDigits 16 n)

/-- Python's `0x{n:0wx}` f-string rendering: `0x` followed by the lowercase
hexadecimal digits left-padded with zeros to width `w`. -/
def pyHexPad (w n : Nat) : String :=
  "0x" ++ String.mk
    (List.replicate (w - (Nat.toDigits 16 n).length) '0' ++ Nat.toDigits 16 n)

/-- Embedding of the decode table inside `Disassembler.disassemble` (the
`try` block, source lines 108-249): `some (mnemonic, operands)` for each
`return`, `none` where the Python control flow falls through to the final
`return "UNKNOWN", ...`.  The `except` clause is unreachable: the only
raising operation is the ABI-name lookup, whose argument is always a 5-bit
field. -/
def disasmTable (inst : Nat) : Option (String × String) :=
  let opcode := get_bits inst 6 2
  let funct3 := get_bits inst 14 12
  let funct7 := get_bits inst 31 25
  let rd := get_bits inst 11 7
  let rs1 := get_bits inst 19 15
  let rs2 := get_bits inst 24 20
  let imm := decode_imm opcode inst
  let imm_signed := to_signed imm
  if opcode = OPCODE_OP then
    let rd_name := reg_name rd
    let rs1_name := reg_name rs1
    let rs2_name := reg_name rs2
    let ops := rd_name ++ ", " ++ rs1_name ++ ", " ++ rs2_name
    if funct7 = 0 then
      if funct3 = 0b000 then some ("ADD", "add " ++ ops)
      else if funct3 = 0b001 then some ("SLL", "sll " ++ ops)
      else if funct3 = 0b010 then some ("SLT", "slt " ++ ops)
      else if funct3 = 0b011 then some ("SLTU", "sltu " ++ ops)
      else if funct3 = 0b100 then some ("XOR", "xor " ++ ops)
      else if funct3 = 0b101 then some ("SRL", "srl " ++ ops)
      else if funct3 = 0b110 then some ("OR", "or " ++ ops)
      else if funct3 = 0b111 then some ("AND", "and " ++ ops)
      else none
    else if funct7 = 0b0100000 then
      if funct3 = 0b000 then some ("SUB", "sub " ++ ops)
      else if funct3 = 0b101 then some ("SRA", "sra " ++ ops)
      else none
    else none
  else if opcode = OPCODE_OPIMM then
    let rd_name := reg_name rd
    let rs1_name := reg_name rs1
    let shamt := get_bits inst 24 20
    let ops := rd_name ++ ", " ++ rs1_name ++ ", " ++ toString imm_signed
    let sops := rd_name ++ ", " ++ rs1_name ++ ", " ++ toString shamt
    if funct3 = 0b000 then some ("ADDI", "addi " ++ ops)
    else if funct3 = 0b010 then some ("SLTI", "slti " ++ ops)
    else if funct3 = 0b011 then some ("SLTIU", "sltiu " ++ ops)
    else if funct3 = 0b100 then some ("XORI", "xori " ++ ops)
    else if funct3 = 0b110 then some ("ORI", "ori " ++ ops)
    else if funct3 = 0b111 then some ("ANDI", "andi " ++ ops)
    else if funct3 = 0b001 then some ("SLLI", "slli " ++ sops)
    else if funct3 = 0b101 then
      if funct7 = 0 then some ("SRLI", "srli " ++ sops)
      else if funct7 = 0b0100000 then some ("SRAI", "srai " ++ sops)
      else none
    else none
  else if opcode = OPCODE_LOAD then
    let rd_name := reg_name rd
    let rs1_name := reg_name rs1
    let ops := rd_name ++ ", " ++ toString imm_signed ++ "(" ++ rs1_name ++ ")"
    if funct3 = 0 then some ("LB", "lb " ++ ops)
    else if funct3 = 1 then some ("LH", "lh " ++ ops)
    else if funct3 = 2 then some ("LW", "lw " ++ ops)
    else if funct3 = 4 then some ("LBU", "lbu " ++ ops)
    else if funct3 = 5 then some ("LHU", "lhu " ++ ops)
    else none
  else if opcode = OPCODE_STORE then
    let rs1_name := reg_name rs1
    let rs2_name := reg_name rs2
    let ops := rs2_name ++ ", " ++ toString imm_signed ++ "(" ++ rs1_name ++ ")"
    if funct3 = 0 then some ("SB", "sb " ++ ops)
    else if funct3 = 1 then some ("SH", "sh " ++ ops)
    else if funct3 = 2 then some ("SW", "sw " ++ ops)
    else none
  else if opcode = OPCODE_BRANCH then
    let rs1_name := reg_name rs1
    let rs2_name := reg_name rs2
    let ops := rs1_name ++ ", " ++ rs2_name ++ ", " ++ toString imm_signed
    if funct3 = 0 then some ("BEQ", "beq " ++ ops)
    else if funct3 = 1 then some ("BNE", "bne " ++ ops)
    else if funct3 = 4 then some ("BLT", "blt " ++ ops)
    else if funct3 = 5 then some ("BGE", "bge " ++ ops)
    else if funct3 = 6 then some ("BLTU", "bltu " ++ ops)
    else if funct3 = 7 then some ("BGEU", "bgeu " ++ ops)
    else none
  else if opcode = OPCODE_JAL then
    some ("JAL", "jal " ++ reg_name rd ++ ", " ++ toString imm_signed)
  else if opcode = OPCODE_JALR then
    some ("JALR", "jalr " ++ reg_name rd ++ ", " ++ reg_name rs1 ++ ", " ++
      toString imm_signed)
  else if opcode = OPCODE_LUI then
    some ("LUI", "lui " ++ reg_name rd ++ ", " ++ toString (imm >>> 12))
  else if opcode = OPCODE_AUIPC then
    some ("AUIPC", "auipc " ++ reg_name rd ++ ", " ++ toString (imm >>> 12))
  else if opcode = OPCODE_SYSTEM then
    let rd_name := reg_name rd
    let rs1_name := reg_name rs1
    let csr := get_bits inst 31 20
    let csrs := pyHexPad 3 csr
    if funct3 = CSRRW_F3 then
      some ("CSRRW", "csrrw " ++ rd_name ++ ", " ++ csrs ++ ", " ++ rs1_name)
    else if funct3 = CSRRS_F3 then
      some ("CSRRS", "csrrs " ++ rd_name ++ ", " ++ csrs ++ ", " ++ rs1_name)
    else if funct3 = CSRRC_F3 then
      some ("CSRRC", "csrrc " ++ rd_name ++ ", " ++ csrs ++ ", " ++ rs1_name)
    else if funct3 = CSRRWI_F3 then
      some ("CSRRWI", "csrrwi " ++ rd_name ++ ", " ++ csrs ++ ", " ++ toString rs1)
    else if funct3 = CSRRSI_F3 then
      some ("CSRRSI", "csrrsi " ++ rd_name ++ ", " ++ csrs ++ ", " ++ toString rs1)
    else if funct3 = CSRRCI_F3 then
      some ("CSRRCI", "csrrci " ++ rd_name ++ ", " ++ csrs ++ ", " ++ toString rs1)
    else none
  else none

/-- Embedding of `Disassembler.disassemble` (source lines 69-251): the three
special-cased words, the valid-encoding check on the low two bits, the
decode table, and the fall-through result. -/
def disassemble (inst : Nat) : String × String :=
  if inst = 0x00000013 then ("NOP", "nop (addi x0, x0, 0)")
  else if inst = 0x73 then ("ECALL", "ecall")
  else if inst = 0x30200073 then ("MRET", "mret")
  else if inst &&& 0x3 ≠ 0x3 then
    ("INVALID", "invalid instruction (" ++ pyHexPad 8 inst ++ ")")
  else
    (disasmTable inst).getD
      ("UNKNOWN", "unknown instruction (" ++ pyHexPad 8 inst ++ ")")

/-- C7, counterexample.  The word `0x00000000` encodes no instruction and
has low two bits `00`; `disassemble` returns the `INVALID` pair for it, not
the claimed `UNKNOWN` pair. -/
theorem disassemble_zero_invalid :
    disassemble 0 = ("INVALID", "invalid instruction (0x00000000)") ∧
      disassemble 0 ≠ ("UNKNOWN", "unknown instruction (0x00000000)") := by
  constructor
  · rfl
  · decide

/-- C7, amended.  For a word that is none of the three special encodings:
if its low two bits differ from `11` it disassembles to the `INVALID` pair;
if its low two bits are `11` and the decode table recognizes nothing it
disassembles to the `UNKNOWN` pair, with the word rendered as 8 padded
lowercase hex digits in both cases. -/
theorem disassemble_unknown_split (inst : Nat) (h13 : inst ≠ 0x00000013)
    (h73 : inst ≠ 0x73) (hmret : inst ≠ 0x30200073) :
    (inst &&& 0x3 ≠ 0x3 →
        disassemble inst =
          ("INVALID", "invalid instruction (" ++ pyHexPad 8 inst ++ ")")) ∧
      (inst &&& 0x3 = 0x3 → disasmTable inst = none →
        disassemble inst =
          ("UNKNOWN", "unknown instruction (" ++ pyHexPad 8 inst ++ ")")) := by
  unfold disassemble
  rw [if_neg h13, if_neg h73, if_neg hmret]
  constructor
  · intro h
    rw [if_pos h]
  · intro h hnone
    rw [if_neg (by simp [h]), hnone]
    rfl

/-- C7, witness for the amended theorem: the word 2 (low bits `10`) yields
the `INVALID` pair and the word 7 (low bits `11`, unassigned opcode
`0b00001`) yields the `UNKNOWN` pair. -/
theorem disassemble_unknown_split_witness :
    disassemble 2 = ("INVALID", "invalid instruction (" ++ pyHexPad 8 2 ++ ")") ∧
      disassemble 7 =
        ("UNKNOWN", "unknown instruction (" ++ pyHexPad 8 7 ++ ")") :=
  ⟨(disassemble_unknown_split 2 (by decide) (by decide) (by decide)).1
      (by decide),
    (disassemble_unknown_split 7 (by decide) (by decide) (by decide)).2
      (by decide) (by decide)⟩

/-! ### Model inspection API (source: `pyv/models/pipelined.py`,
`PipelinedModel`) -/

/-- Memory size of the pipelined core (source line 41: `Memory(8 * 1024)`). -/
def MEM_SIZE : Nat := 8 * 1024

/-- Errors a Python-level operation can raise. -/
inductive PyError where
  | fileNotFound
deriving DecidableEq

/-- Embedding of `PipelinedModel.load_binary`.  The file system is modelled
by an `Option (List Nat)`: `none` means the named file does not exist, in
which case `open` raises the built-in file-not-found error; `some ba` is the
file's byte content.  The slice assignment `mem[:len(inst)] = inst` on a
Python list replaces its first `len(inst)` elements and extends the list
when the payload is longer, i.e. it yields `inst ++ mem.drop inst.length`.
No size check is performed. -/
def load_binary (file : Option (List Nat)) (mem : List Nat) :
    Except PyError (List Nat) :=
  match file with
  | none => Except.error PyError.fileNotFound
  | some ba => Except.ok (ba ++ mem.drop ba.length)

/-- Embedding of `PipelinedModel.readDataMem`: the `nbytes` entries of
`mem` from `addr`, each rendered with Python's `hex`; `none` models the
`IndexError` raised by an out-of-range access. -/
def readDataMem (mem : List Nat) (addr nbytes : Nat) : Option (List String) :=
  (List.range nbytes).mapM (fun i => (mem.get? (addr + i)).map pyHex)

/-- Embedding of `PipelinedModel.readInstMem`: textually identical to
`readDataMem` and reading the same `self.core.mem.mem` list. -/
def readInstMem (mem : List Nat) (addr nbytes : Nat) : Option (List String) :=
  (List.range nbytes).mapM (fun i => (mem.get? (addr + i)).map pyHex)

/-- C8, counterexample.  Loading a binary one byte larger than the 8 KiB
memory succeeds (no error of any kind) and the resulting memory array holds
all 8193 bytes — the load silently proceeds past the memory size. -/
theorem load_binary_oversize_silent :
    load_binary (some (List.replicate (MEM_SIZE + 1) 7))
        (List.replicate MEM_SIZE 0) =
      Except.ok (List.replicate (MEM_SIZE + 1) 7) ∧
      MEM_SIZE < (List.replicate (MEM_SIZE + 1) (7 : Nat)).length := by
  constructor
  · have hstep : load_binary (some (List.replicate (MEM_SIZE + 1) 7))
        (List.replicate MEM_SIZE 0) =
        Except.ok (List.replicate (MEM_SIZE + 1) 7 ++
          (List.replicate MEM_SIZE (0 : Nat)).drop
            (List.replicate (MEM_SIZE + 1) (7 : Nat)).length) := rfl
    have hd : (List.replicate MEM_SIZE (0 : Nat)).drop
        (List.replicate (MEM_SIZE + 1) (7 : Nat)).length = [] := by
      apply List.drop_eq_nil_of_le
      simp
    rw [hstep, hd, List.append_nil]
  · simp

/-- C8, amended.  `load_binary` propagates the built-in file-not-found
error when the file is missing, and otherwise always succeeds, writing the
whole payload from address 0 — growing the memory array when the payload is
longer than it.  It performs no size check and raises nothing for
over-long binaries. -/
theorem load_binary_behavior (file : Option (List Nat)) (mem : List Nat) :
    (file = none → load_binary file mem = Except.error PyError.fileNotFound) ∧
      (∀ ba, file = some ba →
        load_binary file mem = Except.ok (ba ++ mem.drop ba.length)) := by
  constructor
  · intro h
    subst h
    rfl
  · intro ba h
    subst h
    rfl

/-- C8, witness for the amended theorem. -/
theorem load_binary_behavior_witness :
    load_binary none [0] = Except.error PyError.fileNotFound ∧
      load_binary (some [1, 2]) [0] = Except.ok [1, 2] := by
  refine ⟨(load_binary_behavior none [0]).1 rfl, ?_⟩
  have h := (load_binary_behavior (some [1, 2]) [0]).2 [1, 2] rfl
  simpa using h

/-- 8 KiB memory holding the byte 55 at address 2048 (the state the spec's
FIBONACCI scenario reaches). -/
def fibMem : List Nat := (List.replicate MEM_SIZE 0).set 2048 55

set_option maxRecDepth 100000 in
/-- C9.  Evaluating `readDataMem` at the failing input: with 55 stored at
address 2048, `read_data_mem(2048, 4)` returns the hex strings
`['0x37', '0x0', '0x0', '0x0']` — not the byte values `[55, 0, 0, 0]` the
claim (and the function's own docstring, "List of bytes") promises. -/
theorem read_data_mem_returns_hex_strings :
    readDataMem fibMem 2048 4 = some ["0x37", "0x0", "0x0", "0x0"] := by
  decide

/-- C10.  `readInstMem` and `readDataMem` agree on every memory state,
address and count — both read the single shared `self.core.mem.mem` array —
and in particular a store becomes visible through the instruction port, as
the concrete second part shows. -/
theorem inst_mem_is_data_mem :
    (∀ (mem : List Nat) (addr n : Nat),
        readInstMem mem addr n = readDataMem mem addr n) ∧
      readInstMem ((List.replicate 8 0).set 2 9) 2 1 = some ["0x9"] := by
  constructor
  · intro mem addr n
    rfl
  · decide

/-! ### Executable pipeline model for claim C1

The full pipeline is the composition of the hazard unit, the four pipeline
registers and the `connects` glue (all embedded above from the sources)
with the stage modules of `pyv/stages.py`, which are not among the sources
and are modelled from spec sections 4.2-4.7 below.  The stage models cover
the instructions of the program under test (OP-IMM and JAL); any other word
decodes to the record with `we = false` and `mem = 0`, which has no
architectural effect.  The wiring follows `Pipelined.__init__`/`connects`
exactly; in particular the `take_branch` wire reads the EX/MEM *register*
output (`self.exmem_reg.EXMEM_o`), which is the point the claim turns on. -/

/-- Byte of a zero-initialized memory image. -/
def byteAt (mem : List Nat) (i : Nat) : Nat := mem.getD i 0

/-- Modelled from the spec (section 4.2): instruction fetch assembles four
bytes little-endian at the address on the next-PC wire, the only input the
wiring gives the IF stage. -/
def fetch32 (mem : List Nat) (a : Int) : Nat :=
  if 0 ≤ a then
    byteAt mem a.toNat + (byteAt mem (a.toNat + 1)) <<< 8 +
      (byteAt mem (a.toNat + 2)) <<< 16 + (byteAt mem (a.toNat + 3)) <<< 24
  else 0

/-- Regfile read (spec section 3: reads of index 0 yield 0). -/
def rfRead (regs : List Nat) (i : Nat) : Nat :=
  if i = 0 then 0 else regs.getD i 0

/-- Modelled from the spec (section 4.3): the ID stage decodes the IF/ID
word into an `IDEX_t`, restricted to the opcodes the C1 program reaches
(OP-IMM with `we = true, wb_sel = ALU` and JAL with `we = true,
wb_sel = PC+4`); every other word yields the no-effect record. -/
def idStage (regs : List Nat) (ifid : IFID_t) : IDEX_t :=
  let inst := ifid.inst
  if inst &&& 0x3 = 0x3 then
    let opcode := (inst >>> 2) &&& 0x1F
    let rd := (inst >>> 7) &&& 0x1F
    let f3 := (inst >>> 12) &&& 0x7
    let rs1i := (inst >>> 15) &&& 0x1F
    let rs2i := (inst >>> 20) &&& 0x1F
    let f7 := (inst >>> 25) &&& 0x7F
    let base : IDEX_t :=
      { pc := ifid.pc, rs1 := rfRead regs rs1i, rs2 := rfRead regs rs2i,
        imm := decode_imm opcode inst, rd := rd, rs1_idx := rs1i,
        rs2_idx := rs2i, opcode := opcode, funct3 := f3, funct7 := f7,
        we := false, wb_sel := 0, mem := 0, is_branch := false }
    if opcode = OPCODE_OPIMM then { base with we := true, wb_sel := 0 }
    else if opcode = OPCODE_JAL then { base with we := true, wb_sel := 1 }
    else idexZero
  else idexZero

/-- Modelled from the spec (section 4.4): the EX stage; for JAL
`take_branch` is unconditionally true and `alu_res` carries the target
`pc + imm`; for OP-IMM the ALU adds `rs1` and the immediate modulo 2^32;
`pc4 = pc + 4`. -/
def exStage (idex : IDEX_t) : EXMEM_t :=
  let takeBr := idex.opcode == OPCODE_JAL || idex.opcode == OPCODE_JALR
  let aluRes : Int :=
    if idex.opcode = OPCODE_JAL then idex.pc + to_signed idex.imm
    else (((idex.rs1 + idex.imm) % 4294967296 : Nat) : Int)
  { pc4 := idex.pc + 4, alu_res := aluRes, rs2 := idex.rs2, rd := idex.rd,
    we := idex.we, wb_sel := idex.wb_sel, mem := idex.mem,
    funct3 := idex.funct3, take_branch := takeBr }

/-- Modelled from the spec (section 4.5): the MEM stage; the C1 program
performs no loads or stores (`mem = 0` throughout), so it passes the record
through. -/
def memStage (exmem : EXMEM_t) : MEMWB_t :=
  { pc4 := exmem.pc4, alu_res := exmem.alu_res, mem_rdata := 0,
    rd := exmem.rd, we := exmem.we, wb_sel := exmem.wb_sel,
    csr_read_val := 0 }

/-- Modelled from the spec (section 4.6): the WB stage writes the regfile
when `we = true` and `rd ≠ 0`, selecting `alu_res` (`wb_sel = 0`) or `pc4`
(`wb_sel = 1`), reduced to a 32-bit word. -/
def wbStage (regs : List Nat) (memwb : MEMWB_t) : List Nat :=
  if memwb.we && memwb.rd != 0 then
    let v : Nat :=
      if memwb.wb_sel = 1 then (memwb.pc4 % (4294967296 : Int)).toNat
      else (memwb.alu_res % (4294967296 : Int)).toNat
    regs.set memwb.rd v
  else regs

/-- Architectural + pipeline-register state of the pipelined core. -/
structure PState where
  pc : Int
  ifid : IFID_t
  idex : IDEX_t
  exmem : EXMEM_t
  memwb : MEMWB_t
  regs : List Nat
deriving DecidableEq

/-- One clock cycle of the pipelined core: the combinational signals follow
the wiring of `Pipelined.__init__`/`connects` — in particular the
`take_branch` and `alu_res` wires read the EX/MEM register output — and
every register commits through its embedded `process`/hold semantics.  The
branch unit (spec section 4.7, no exception pending in the C1 program)
drives `npc = alu_res` when `take_branch` else `pc + 4`. -/
def cycle (prog : List Nat) (s : PState) : PState :=
  let tb := s.exmem.take_branch
  let aluRes := s.exmem.alu_res
  let haz := hazardProcess s.ifid s.idex s.exmem tb
  let npcV := if tb then aluRes else s.pc + 4
  let ifIn : IFID_t := { inst := fetch32 prog npcV, pc := npcV }
  { pc := regHold s.pc (connectsPCWrite haz.stall_pc npcV)
    ifid := ifidRegNext s.ifid ifIn haz.stall_ifid haz.flush_ifid
    idex := idexRegNext s.idex (idStage s.regs s.ifid) haz.stall_idex
      haz.flush_idex
    exmem := exmemRegNext s.exmem (exStage s.idex) haz.stall_exmem
      haz.flush_exmem
    memwb := memwbRegNext s.memwb (memStage s.exmem) haz.stall_memwb false
    regs := wbStage s.regs s.memwb }

/-- Reset state: `pc = -4` (reset value of `pc_reg`), bubbles in all four
pipeline registers, zeroed regfile. -/
def initState : PState :=
  { pc := -4, ifid := ifidBubble, idex := idexZero, exmem := exmemZero,
    memwb := memwbZero, regs := List.replicate 32 0 }

/-- State after `n` cycles from reset. -/
def runCycles (prog : List Nat) : Nat → PState
  | 0 => initState
  | n + 1 => cycle prog (runCycles prog n)

/-- Little-endian image of the C1 failing program:
`0: jal x0, 12` (`0x00C0006F`), `4: addi x1, x0, 42` (`0x02A00093`),
`8: addi x2, x0, 7` (`0x00700113`), `12: addi x3, x0, 9` (`0x00900193`),
`16: addi x4, x0, 10` (`0x00A00213`). -/
def progShadow : List Nat :=
  [0x6F, 0x00, 0xC0, 0x00,
    0x93, 0x00, 0xA0, 0x02,
    0x13, 0x01, 0x70, 0x00,
    0x93, 0x01, 0x90, 0x00,
    0x13, 0x02, 0xA0, 0x00]

/-- C1, evaluation at the failing input.  The jump at address 0 is observed
taken (cycle 3), yet six cycles after reset the shadow instruction at
`pc + 4` (`addi x1, x0, 42`) has written the register file: `x1 = 42`.
The flush arrives one cycle after EX resolves the jump — `take_branch` is
read from the EX/MEM register output — so the `pc+4` slot has already left
ID/EX and completes, contradicting the claim that neither `pc+4` nor `pc+8`
has an architectural effect. -/
theorem branch_shadow_instruction_writes_regfile :
    (runCycles progShadow 3).exmem.take_branch = true ∧
      (runCycles progShadow 6).regs.get? 1 = some 42 := by
  decide

end PyV
